import Mathlib

/-!
Verification of the Semoxy server control plane against its code.

Each Python component relevant to the checked properties is shallowly
embedded as an executable Lean definition:

* `src/semoxy/io/wsmanager.py` (`WebsocketConnectionManager`): subscriber
  registry, intent-filtered broadcast, unregistration.
* `src/semoxy/mc/server.py` (`MinecraftServer`): lifecycle state machine,
  console-line classification, event persistence.
* `src/semoxy/mc/servermanager.py` (`ServerManager`): server creation
  validation and rollback, deletion.
* `src/semoxy/mc/communication.py` (`ServerCommunication`): process spawn
  and stream-watcher wiring.

Database writes, websocket packets and filesystem calls are recorded in
explicit effect traces; awaited coroutines run sequentially, matching the
single event loop of the application. Outcomes of external calls (regex
matches against configurable per-server patterns, version lookups, spawn
success) enter as parameters.
-/

deriving instance DecidableEq for Except

namespace Semoxy

/-! ## Websocket connection manager (src/semoxy/io/wsmanager.py) -/

/-- Result of awaiting `ws.send(msg)` on one subscriber: success, one of the
two caught exception types (`ConnectionClosedOK`, `ConnectionClosedError`),
or any other exception. -/
inductive SendOutcome
  | ok
  | closedOk
  | closedError
  | otherError
deriving DecidableEq

/-- A `WebSocketConnection`: the identity of the underlying raw websocket,
the set of enabled intents, and the behaviour of its `send`. -/
structure WSConn where
  wsId : Nat
  intents : List String
  outcome : SendOutcome
deriving DecidableEq

/-- Python `list.remove(x)` minus the ValueError: drops the first element
satisfying `p`, returns the list unchanged when none does. Callers that can
raise check presence separately. -/
def removeFirst (p : α → Bool) : List α → List α
  | [] => []
  | x :: xs => if p x then xs else x :: removeFirst p xs

/-- The `isinstance(ws, WebSocketConnection)` branch of
`WebsocketConnectionManager.disconnected`: `self.connections.remove(ws)`,
which raises ValueError when `ws` is not registered. -/
def disconnectedHandle (conns : List WSConn) (c : WSConn) :
    Except Unit (List WSConn) :=
  if conns.contains c then Except.ok (removeFirst (fun x => x == c) conns)
  else Except.error ()

/-- The `for conn in self.connections: if conn.ws == ws:
self.connections.remove(conn)` branch of `disconnected`: Python iterates by
index over the list while `remove` mutates it, so after a removal the loop
index advances past the element that slid into the removed slot. The
structural fuel bounds the iteration count; the index grows by one per step
and the list never grows, so `l.length` steps from index 0 exhaust the
loop and the fuel-0 base is unreachable from `disconnRaw`. -/
def disconnRawGo (w : Nat) : Nat → List WSConn → Nat → List WSConn
  | 0, l, _ => l
  | fuel + 1, l, i =>
    if h : i < l.length then
      let conn := l.get ⟨i, h⟩
      if conn.wsId = w then
        disconnRawGo w fuel (removeFirst (fun x => x == conn) l) (i + 1)
      else
        disconnRawGo w fuel l (i + 1)
    else l

/-- The raw-websocket branch of `disconnected` as called: the loop starts at
index 0 over the current list. -/
def disconnRaw (w : Nat) (conns : List WSConn) : List WSConn :=
  disconnRawGo w conns.length conns 0

/-- Argument forms accepted by `disconnected`: a wrapped
`WebSocketConnection`, or the raw underlying websocket. -/
inductive DisconnArg
  | handle (c : WSConn)
  | raw (w : Nat)

/-- `WebsocketConnectionManager.disconnected`, both argument forms. -/
def disconnected (conns : List WSConn) : DisconnArg → Except Unit (List WSConn)
  | DisconnArg.handle c => disconnectedHandle conns c
  | DisconnArg.raw w => Except.ok (disconnRaw w conns)

/-- The per-subscriber filter of `send`: deliver when no intents were passed,
otherwise when some passed intent is enabled on the connection. -/
def shouldSend (intents : List String) (c : WSConn) : Bool :=
  intents.isEmpty || intents.any (fun i => c.intents.contains i)

/-- The `for ws in self.connections` loop of
`WebsocketConnectionManager.send`: returns the wsIds delivered to in order,
the `to_disc` list, and whether an uncaught exception aborted the loop.
Only `ConnectionClosedOK` and `ConnectionClosedError` are caught; any other
exception from `ws.send` propagates and stops the iteration. -/
def sendLoop (intents : List String) : List WSConn → List Nat × List WSConn × Bool
  | [] => ([], [], false)
  | c :: rest =>
    if shouldSend intents c then
      match c.outcome with
      | SendOutcome.ok =>
        let (d, t, r) := sendLoop intents rest
        (c.wsId :: d, t, r)
      | SendOutcome.closedOk =>
        let (d, t, r) := sendLoop intents rest
        (d, c :: t, r)
      | SendOutcome.closedError =>
        let (d, t, r) := sendLoop intents rest
        (d, c :: t, r)
      | SendOutcome.otherError => ([], [], true)
    else
      let (d, t, r) := sendLoop intents rest
      (d, t, r)

/-- The `for ws in to_disc: await self.disconnected(ws)` epilogue of `send`.
Each entry goes through the handle form of `disconnected`; a ValueError
there would propagate (second component true), keeping the removals already
applied. -/
def runDisconnects : List WSConn → List WSConn → List WSConn × Bool
  | cs, [] => (cs, false)
  | cs, c :: t =>
    match disconnectedHandle cs c with
    | Except.ok cs2 => runDisconnects cs2 t
    | Except.error _ => (cs, true)

/-- Observable outcome of one `send` call: who received the message, the
connection list afterwards, and whether an exception escaped to the
caller. -/
structure SendResult where
  delivered : List Nat
  conns : List WSConn
  raised : Bool
deriving DecidableEq

/-- `WebsocketConnectionManager.send`: broadcast pass, then deferred
removal of subscribers whose send raised a connection-closed exception.
When some subscriber raised any other exception, it escapes before the
removal phase runs, so the connection list is left as it was. -/
def send (conns : List WSConn) (intents : List String) : SendResult :=
  let (d, t, r) := sendLoop intents conns
  if r then { delivered := d, conns := conns, raised := true }
  else
    let (cs, r2) := runDisconnects conns t
    { delivered := d, conns := cs, raised := r2 }

/-! ## Minecraft server supervisor (src/semoxy/mc/server.py) -/

/-- `EventType` (src/semoxy/models/event.py). -/
inductive EvType
  | SERVER_START
  | PLAYER_JOIN
  | PLAYER_LEAVE
  | SERVER_STOP
  | SERVER_EXCEPTION
  | CONSOLE_COMMAND
  | CONSOLE_MESSAGE
deriving DecidableEq

/-- Packets broadcast through the connection manager by the supervisor:
`ServerStateChangePacket` and `EventPacket` (the latter carries the intents
passed to `send`). -/
inductive Packet
  | stateChange (status : Nat)
  | event (t : EvType) (data : List (String × String)) (intents : List String)
deriving DecidableEq

/-- State of one `MinecraftServer` plus the effect traces of its awaited
calls: persisted events, persisted descriptor saves, broadcast packets,
stdin writes, fulfilled stop signals, deleted files. Stop signals
(`asyncio.Event` objects) are numbered from a fresh counter. -/
structure SrvState where
  serverId : String
  onlineStatus : Nat
  running : Bool
  stopEvent : Option Nat
  nextSignal : Nat
  fulfilled : List Nat
  savedEvents : List (EvType × List (String × String))
  statusSaves : List Nat
  packets : List Packet
  stdinWrites : List String
  onlinePlayers : List String
  filesToRemove : List String
  removedFiles : List String
  ramCpu : Option (Nat × Nat)
deriving DecidableEq

/-- `MinecraftServer.create_event`: persists a `ServerEvent` and broadcasts
an `EventPacket`; only CONSOLE_MESSAGE packets carry console intents. -/
def create_event (t : EvType) (data : List (String × String))
    (st : SrvState) : SrvState :=
  let intents :=
    if t = EvType.CONSOLE_MESSAGE then
      ["console." ++ st.serverId, "console.*"]
    else []
  { st with
    savedEvents := st.savedEvents ++ [(t, data)]
    packets := st.packets ++ [Packet.event t data intents] }

/-- `MinecraftServer.set_online_status`: saves the descriptor with the new
status, persists a SERVER_STOP event for status 0 and a SERVER_START event
for status 1, then broadcasts a `ServerStateChangePacket`. -/
def set_online_status (status : Nat) (st : SrvState) : SrvState :=
  let st := { st with
    onlineStatus := status
    statusSaves := st.statusSaves ++ [status] }
  let st :=
    if status = 0 then create_event EvType.SERVER_STOP [] st
    else if status = 1 then create_event EvType.SERVER_START [] st
    else st
  { st with packets := st.packets ++ [Packet.stateChange status] }

/-- `ServerCommunication.write_stdin_sync`: a no-op when the process is not
running, otherwise writes the line to the child stdin. -/
def write_stdin_sync (cmd : String) (st : SrvState) : SrvState :=
  if st.running then { st with stdinWrites := st.stdinWrites ++ [cmd] }
  else st

/-- `MinecraftServer.send_command`: a command starting with "stop" first
moves the persisted status to STOPPING, then the command goes to stdin. -/
def send_command (cmd : String) (st : SrvState) : SrvState :=
  let st :=
    if List.isPrefixOf "stop".toList cmd.toList then set_online_status 3 st
    else st
  write_stdin_sync cmd st

/-- `MinecraftServer.stop`: returns no signal for status OFFLINE (0) or
STOPPING (3); otherwise sends the stop command and hands out a fresh
`asyncio.Event` stored in `_stop_event`. -/
def stop (st : SrvState) : Option Nat × SrvState :=
  if st.onlineStatus = 0 ∨ st.onlineStatus = 3 then (none, st)
  else
    let st := send_command "stop" st
    let sig := st.nextSignal
    (some sig, { st with stopEvent := some sig, nextSignal := sig + 1 })

/-- `MinecraftServer.on_stop`: clears the running flag and the resource
snapshot, resets the status to OFFLINE, deletes the queued files, and
fulfills the pending stop signal when one exists. -/
def on_stop (st : SrvState) : SrvState :=
  let st := { st with running := false, ramCpu := none }
  let st := set_online_status 0 st
  let st := { st with
    removedFiles := st.removedFiles ++ st.filesToRemove
    filesToRemove := [] }
  match st.stopEvent with
  | some e => { st with fulfilled := st.fulfilled ++ [e], stopEvent := none }
  | none => st

/-- `MinecraftServer.on_player_join`: persists the PLAYER_JOIN event and adds
the player to the online set. -/
def on_player_join (playerName uuid : String) (st : SrvState) : SrvState :=
  let st := create_event EvType.PLAYER_JOIN
    [("name", playerName), ("uuid", uuid)] st
  if playerName ∈ st.onlinePlayers then st
  else { st with onlinePlayers := st.onlinePlayers ++ [playerName] }

/-- `MinecraftServer.on_player_leave`: persists the PLAYER_LEAVE event, then
`self.online_players.remove(player_name)` — `set.remove` raises KeyError
when the player is not in the set. The error value carries the state at
raise time (the event save has already happened). -/
def on_player_leave (playerName : String) (st : SrvState) :
    Except (String × SrvState) SrvState :=
  let st := create_event EvType.PLAYER_LEAVE [("name", playerName)] st
  if playerName ∈ st.onlinePlayers then
    Except.ok { st with onlinePlayers := st.onlinePlayers.erase playerName }
  else
    Except.error ("KeyError", st)

/-- The `regexes` document of the server (src/semoxy/models/server.py): the
patterns are configurable per-server data, so the `re.match` outcomes are
abstracted as functions of the line. `playerJoin` yields the two captured
groups (name, uuid), `playerLeave` the captured name. -/
structure RxMatchers where
  start : String → Bool
  playerJoin : String → Option (String × String)
  playerLeave : String → Option String

/-- Python `str.strip()`: whitespace removed from both ends. -/
def stripLine (s : String) : String :=
  String.mk
    (((s.toList.dropWhile Char.isWhitespace).reverse.dropWhile
      Char.isWhitespace).reverse)

/-- `MinecraftServer.on_output`: strips the line, promotes STARTING → ONLINE
on the start pattern, dispatches join and leave handlers, and finally
persists the CONSOLE_MESSAGE event — unless an exception escaped one of the
handlers first. -/
def on_output (rx : RxMatchers) (line : String) (st : SrvState) :
    Except (String × SrvState) SrvState :=
  let line := stripLine line
  let st :=
    if st.onlineStatus = 1 ∧ rx.start line = true then set_online_status 2 st
    else st
  let st :=
    match rx.playerJoin line with
    | some (n, u) => on_player_join n u st
    | none => st
  match rx.playerLeave line with
  | some n =>
    match on_player_leave n st with
    | Except.error e => Except.error e
    | Except.ok st =>
      Except.ok (create_event EvType.CONSOLE_MESSAGE [("message", line)] st)
  | none =>
    Except.ok (create_event EvType.CONSOLE_MESSAGE [("message", line)] st)

/-- `MinecraftServer.start`: builds a fresh `ServerCommunication` (not yet
running), moves the status to STARTING, then awaits `begin()`. The spawn
outcome is a parameter: `beginThrows` true models `psutil.Popen` raising
(message `errMsg`), in which case a SERVER_EXCEPTION event is persisted and
the status falls back to OFFLINE; on success the process is running and the
resource snapshot `rc` is taken. -/
def start (beginThrows : Bool) (errMsg : String) (rc : Nat × Nat)
    (st : SrvState) : SrvState :=
  let st := { st with running := false }
  let st := set_online_status 1 st
  if beginThrows then
    let st := create_event EvType.SERVER_EXCEPTION [("message", errMsg)] st
    set_online_status 0 st
  else
    { st with running := true, ramCpu := some rc }

/-- One iteration of the `async for server in ...find(Server)` loop of
`ServerManager.init`: a descriptor persisted as ONLINE (2) is started; any
other non-OFFLINE descriptor is force-reset to OFFLINE. -/
def init_server_entry (beginThrows : Bool) (errMsg : String) (rc : Nat × Nat)
    (st : SrvState) : SrvState :=
  if st.onlineStatus = 2 then start beginThrows errMsg rc st
  else if st.onlineStatus ≠ 0 then set_online_status 0 st
  else st

/-! ## Server manager (src/semoxy/mc/servermanager.py) -/

/-- The error codes `create_server` can return through `json_error`. -/
inductive APIError
  | INVALID_VERSION
  | TOO_MUCH_RAM
  | INVALID_PORT_TYPE
  | INVALID_PORT
  | ILLEGAL_SERVER_NAME
  | INVALID_JAVA_VERSION
  | SERVER_VERSION_POST_INSTALL
deriving DecidableEq

/-- Response of `create_server`. -/
inductive CSResult
  | apiError (e : APIError)
  | success
deriving DecidableEq

/-- Side effects of `create_server`, in program order. `rmtree` never occurs
in `create_server` itself; it is in the alphabet because the rollback claim
asks whether the created directory is removed. -/
inductive CSEffect
  | mkdir (dir : String)
  | download
  | saveEula
  | saveRecord
  | deleteRecord
  | rmtree (dir : String)
  | appendRegistry
  | broadcastAdd
deriving DecidableEq

/-- The `port` argument as received from the request body: an int, or a
value of any other type (rejected by the `isinstance(port, int)` check). -/
inductive PortParam
  | int (n : Int)
  | notInt
deriving DecidableEq

/-- Inputs and environment of one `create_server` call. Checks performed by
awaited external calls (version lookup, regex policy, configured java
versions) enter as their boolean outcomes; the persisted names and existing
directories are the finite sets the dedup loops consult. -/
structure CSParams where
  name : String
  providerIsValid : Bool
  hasVersion : Bool
  ram : Int
  maxRam : Int
  port : PortParam
  nameMatchesPolicy : Bool
  javaKnown : Bool
  cwd : String
  serverDir : String
  existingNames : List String
  existingDirs : List String
  postDownloadThrows : Bool
deriving DecidableEq

/-- `ServerManager.format_name`: `s.lower().replace(" ", "-")`, then every
character that is neither alphanumeric nor a hyphen becomes an underscore.
Lowercasing and the single-character replace act per character. -/
def format_name (s : String) : String :=
  let cs := s.toList.map Char.toLower
  let cs := cs.map (fun c => if c = ' ' then '-' else c)
  String.mk (cs.map fun e => if e.isAlphanum || e = '-' then e else '_')

/-- Bounded unrolling of `while not await self.is_name_available(name):
name += "-"`. The persisted store is finite, and the candidates produced by
appending "-" are pairwise distinct, so `existing.length + 1` iterations
always reach the fixpoint the while loop reaches. -/
def resolveNameGo (existing : List String) : Nat → String → String
  | 0, n => n
  | k + 1, n =>
    if n ∈ existing then resolveNameGo existing k (n ++ "-") else n

/-- The deduplicated internal server name. -/
def resolveName (existing : List String) (name : String) : String :=
  resolveNameGo existing (existing.length + 1) name

/-- `os.path.join` for the paths built here. -/
def joinPath (a b : String) : String := a ++ "/" ++ b

/-- Bounded unrolling of `while os.path.isdir(dir_): dir_ += "-server"`,
against the finite set of existing directories. -/
def resolveDirGo (existing : List String) : Nat → String → String
  | 0, d => d
  | k + 1, d =>
    if d ∈ existing then resolveDirGo existing k (d ++ "-server") else d

/-- The deduplicated data directory path. -/
def resolveDir (existing : List String) (dir : String) : String :=
  resolveDirGo existing (existing.length + 1) dir

/-- The port test at servermanager.py:121, `port < 25000 | port > 30000`:
in Python `|` binds tighter than the comparisons and comparisons chain, so
this evaluates `(port < (25000 | port)) and ((25000 | port) > 30000)` with
`|` the bitwise or (`Int.lor` has the same two's-complement semantics). -/
def portCheckRejects (port : Int) : Bool :=
  decide (port < Int.lor 25000 port) && decide (Int.lor 25000 port > 30000)

/-- `ServerManager.create_server`: the validation chain in program order,
then the provisioning effects (mkdir, jar download, eula write, descriptor
save); when `post_download` raises, only the descriptor is deleted before
the error response is returned; on success the supervisor joins the
registry and a `ServerAddPacket` goes out. -/
def create_server (p : CSParams) : CSResult × List CSEffect :=
  if !p.providerIsValid then (CSResult.apiError APIError.INVALID_VERSION, [])
  else if !p.hasVersion then (CSResult.apiError APIError.INVALID_VERSION, [])
  else if p.ram > p.maxRam then (CSResult.apiError APIError.TOO_MUCH_RAM, [])
  else
    match p.port with
    | PortParam.notInt => (CSResult.apiError APIError.INVALID_PORT_TYPE, [])
    | PortParam.int port =>
      if portCheckRejects port then
        (CSResult.apiError APIError.INVALID_PORT, [])
      else if !p.nameMatchesPolicy then
        (CSResult.apiError APIError.ILLEGAL_SERVER_NAME, [])
      else if !p.javaKnown then
        (CSResult.apiError APIError.INVALID_JAVA_VERSION, [])
      else
        let name := resolveName p.existingNames (format_name p.name)
        let dir := resolveDir p.existingDirs
          (joinPath (joinPath p.cwd p.serverDir) name)
        let fx := [CSEffect.mkdir dir, CSEffect.download, CSEffect.saveEula,
          CSEffect.saveRecord]
        if p.postDownloadThrows then
          (CSResult.apiError APIError.SERVER_VERSION_POST_INSTALL,
            fx ++ [CSEffect.deleteRecord])
        else
          (CSResult.success,
            fx ++ [CSEffect.appendRegistry, CSEffect.broadcastAdd])

/-- Side effects of `delete_server`, in program order. -/
inductive DelEffect
  | stopAwaited (sig : Nat)
  | rmtreeDir (dir : String)
  | deleteRecord
  | broadcastDelete
deriving DecidableEq

/-- One entry of `ServerManager.servers`. -/
structure MgrSrv where
  srvId : Nat
  st : SrvState
  dataDir : String
deriving DecidableEq

/-- `ServerManager.delete_server`: raises ValueError when the supervisor is
not registered; stops and awaits the returned signal only when
`0 < onlineStatus < 3`; then removes the data directory, deletes the
persisted record, broadcasts a `ServerDeletePacket`, and unregisters the
supervisor. Awaiting `stop_event.wait()` when `stop()` returned `None`
would be an AttributeError; the guard makes that branch unreachable. -/
def delete_server (mgr : List MgrSrv) (srv : MgrSrv) :
    Except String (List MgrSrv × List DelEffect) :=
  if !(mgr.any (fun s => s.srvId == srv.srvId)) then
    Except.error "ValueError: invalid server"
  else
    let step : Except String (List DelEffect) :=
      if 0 < srv.st.onlineStatus ∧ srv.st.onlineStatus < 3 then
        match stop srv.st with
        | (some sig, _) => Except.ok [DelEffect.stopAwaited sig]
        | (none, _) => Except.error "AttributeError: NoneType has no wait"
      else Except.ok []
    match step with
    | Except.error e => Except.error e
    | Except.ok fx =>
      Except.ok (removeFirst (fun s => s == srv) mgr,
        fx ++ [DelEffect.rmtreeDir srv.dataDir, DelEffect.deleteRecord,
          DelEffect.broadcastDelete])

/-! ## Process communication (src/semoxy/mc/communication.py) -/

/-- The callbacks a `StreamWatcher` can be wired to: the supervisor's
stdout handler, its stderr handler, or nothing. -/
inductive CallbackTag
  | onOutputCb
  | onStderrCb
deriving DecidableEq

/-- The pipe handles `psutil.Popen` returns for the child process. -/
structure ProcPipes where
  stdoutPipe : Nat
  stderrPipe : Nat
deriving DecidableEq

/-- One `StreamWatcher(...)` construction: the stream handle it will read,
the output callback it schedules lines onto, and whether it owns the close
callback. -/
structure WatcherSpec where
  stream : Nat
  outCallback : CallbackTag
  hasOnClose : Bool
deriving DecidableEq

/-- The two `StreamWatcher` constructions in `ServerCommunication.begin`
(communication.py lines 65-66): both are handed `self.process.stdout`; the
second gets `self.on_stderr` as its output callback and no close
callback. -/
def begin_watchers (p : ProcPipes) : List WatcherSpec :=
  [ { stream := p.stdoutPipe, outCallback := CallbackTag.onOutputCb,
      hasOnClose := true },
    { stream := p.stdoutPipe, outCallback := CallbackTag.onStderrCb,
      hasOnClose := false } ]

/-- A quiet ONLINE supervisor state, used to instantiate the general
theorems at concrete inputs. -/
def onlineState : SrvState :=
  { serverId := "srv1"
    onlineStatus := 2
    running := true
    stopEvent := none
    nextSignal := 0
    fulfilled := []
    savedEvents := []
    statusSaves := []
    packets := []
    stdinWrites := []
    onlinePlayers := []
    filesToRemove := []
    removedFiles := []
    ramCpu := some (1, 1) }

/-- A quiet just-constructed supervisor state, used to instantiate the
general theorems at concrete inputs. -/
def idleState : SrvState :=
  { serverId := "srv1"
    onlineStatus := 0
    running := false
    stopEvent := none
    nextSignal := 0
    fulfilled := []
    savedEvents := []
    statusSaves := []
    packets := []
    stdinWrites := []
    onlinePlayers := []
    filesToRemove := []
    removedFiles := []
    ramCpu := none }

/-- Baseline parameters for a well-formed `create_server` request: every
validation outcome positive, port 25565 would be the intended default but
the checked calls override the port explicitly. -/
def baseParams : CSParams :=
  { name := "My Server"
    providerIsValid := true
    hasVersion := true
    ram := 2
    maxRam := 16
    port := PortParam.int 25565
    nameMatchesPolicy := true
    javaKnown := true
    cwd := "cwd"
    serverDir := "servers"
    existingNames := []
    existingDirs := []
    postDownloadThrows := false }

/-! ## Lemmas about the broadcast machinery -/

theorem removeFirst_length_le (p : α → Bool) (xs : List α) :
    (removeFirst p xs).length ≤ xs.length := by
  induction xs with
  | nil => simp [removeFirst]
  | cons y ys ih =>
    simp only [removeFirst]
    by_cases hy : p y = true
    · rw [if_pos hy]; simp
    · rw [if_neg hy]; simp only [List.length_cons]; omega

theorem list_contains_iff {α : Type} [DecidableEq α] (l : List α) (a : α) :
    l.contains a = true ↔ a ∈ l := List.elem_iff

theorem removeFirst_append_of_none {p : α → Bool} {l₁ : List α}
    (h : ∀ a ∈ l₁, p a = false) (l₂ : List α) :
    removeFirst p (l₁ ++ l₂) = l₁ ++ removeFirst p l₂ := by
  induction l₁ with
  | nil => simp
  | cons y ys ih =>
    have hy := h y (by simp)
    simp only [List.cons_append, removeFirst, hy]
    rw [if_neg (by simp [hy])]
    exact congrArg (List.cons y) (ih (fun a ha => h a (by simp [ha])))

theorem removeFirst_cons_of_pos {p : α → Bool} {x : α} (h : p x = true)
    (l : List α) : removeFirst p (x :: l) = l := by
  simp [removeFirst, h]

theorem removeFirst_eq_filter [DecidableEq α] {l : List α} (hnd : l.Nodup)
    (a : α) : removeFirst (fun x => x == a) l = l.filter (fun x => !(x == a)) := by
  induction l with
  | nil => rfl
  | cons y ys ih =>
    rcases List.nodup_cons.mp hnd with ⟨hy, hys⟩
    by_cases h : y = a
    · subst h
      rw [removeFirst_cons_of_pos (by simp)]
      rw [List.filter_cons_of_neg (by simp)]
      symm
      apply List.filter_eq_self.mpr
      intro x hx
      simp only [Bool.not_eq_true', beq_eq_false_iff_ne, ne_eq]
      intro hxy
      exact hy (hxy ▸ hx)
    · simp only [removeFirst]
      rw [if_neg (by simp [h])]
      rw [List.filter_cons_of_pos (by simp [h])]
      rw [ih hys]

theorem runDisconnects_eq (t : List WSConn) : ∀ cs : List WSConn, cs.Nodup →
    t.Nodup → (∀ x ∈ t, x ∈ cs) →
    runDisconnects cs t = (cs.filter (fun c => !(t.contains c)), false) := by
  induction t with
  | nil =>
    intro cs _ _ _
    simp [runDisconnects, List.filter_eq_self]
  | cons x t ih =>
    intro cs hcs hnt hsub
    have hx : x ∈ cs := hsub x (by simp)
    rcases List.nodup_cons.mp hnt with ⟨hxt, hts⟩
    have hstep : disconnectedHandle cs x =
        Except.ok (cs.filter (fun c => !(c == x))) := by
      rw [disconnectedHandle, if_pos ((list_contains_iff cs x).mpr hx)]
      rw [removeFirst_eq_filter hcs]
    simp only [runDisconnects, hstep]
    rw [ih (cs.filter (fun c => !(c == x))) (hcs.filter _) hts ?side]
    case side =>
      intro y hy
      rw [List.mem_filter]
      refine ⟨hsub y (by simp [hy]), ?_⟩
      simp only [Bool.not_eq_true', beq_eq_false_iff_ne, ne_eq]
      intro hyx
      exact hxt (hyx ▸ hy)
    rw [List.filter_filter]
    congr 1
    apply List.filter_congr
    intro c _
    by_cases hcx : c = x
    · simp [hcx]
    · simp [hcx, Ne.symm hcx]

theorem sendLoop_of_no_other (intents : List String) :
    ∀ conns : List WSConn,
    (∀ c ∈ conns, c.outcome ≠ SendOutcome.otherError) →
    sendLoop intents conns =
      ((conns.filter (fun c =>
          shouldSend intents c && (c.outcome == SendOutcome.ok))).map WSConn.wsId,
       conns.filter (fun c =>
          shouldSend intents c && !(c.outcome == SendOutcome.ok)),
       false) := by
  intro conns h
  induction conns with
  | nil => simp [sendLoop]
  | cons c rest ih =>
    have hc := h c (by simp)
    have hrest : ∀ x ∈ rest, x.outcome ≠ SendOutcome.otherError :=
      fun x hx => h x (by simp [hx])
    have ihr := ih hrest
    by_cases hs : shouldSend intents c = true
    · cases hoc : c.outcome with
      | ok => simp [sendLoop, hs, hoc, ihr]
      | closedOk => simp [sendLoop, hs, hoc, ihr]
      | closedError => simp [sendLoop, hs, hoc, ihr]
      | otherError => exact absurd hoc hc
    · simp only [Bool.not_eq_true] at hs
      simp [sendLoop, hs, ihr]

theorem shouldSend_iff (intents : List String) (c : WSConn) :
    shouldSend intents c = true ↔
      intents = [] ∨ ∃ i ∈ intents, i ∈ c.intents := by
  simp [shouldSend, List.isEmpty_iff, List.any_eq_true, list_contains_iff]

/-- Claim C4: a broadcast with zero interests reaches every registered
subscriber; a broadcast with one or more interests reaches a subscriber
exactly when some passed interest is in that subscriber's enabled set. -/
theorem send_intent_filtering (conns : List WSConn) (intents : List String)
    (hok : ∀ x ∈ conns, x.outcome = SendOutcome.ok)
    (hnd : (conns.map WSConn.wsId).Nodup) (c : WSConn) (hc : c ∈ conns) :
    c.wsId ∈ (send conns intents).delivered ↔
      (intents = [] ∨ ∃ i ∈ intents, i ∈ c.intents) := by
  have hno : ∀ x ∈ conns, x.outcome ≠ SendOutcome.otherError := by
    intro x hx
    rw [hok x hx]
    intro hcontra
    exact SendOutcome.noConfusion hcontra
  have hsl := sendLoop_of_no_other intents conns hno
  have htnil : conns.filter (fun x =>
      shouldSend intents x && !(x.outcome == SendOutcome.ok)) = [] := by
    apply List.filter_eq_nil_iff.mpr
    intro x hx
    simp [hok x hx]
  have hdel : (send conns intents).delivered =
      (conns.filter (fun x => shouldSend intents x)).map WSConn.wsId := by
    rw [send, hsl]
    simp only [htnil, runDisconnects, Bool.false_eq_true, if_false]
    congr 1
    apply List.filter_congr
    intro x hx
    simp [hok x hx]
  rw [hdel, ← shouldSend_iff]
  constructor
  · intro hmem
    rcases List.mem_map.mp hmem with ⟨c2, hc2f, hc2id⟩
    rcases List.mem_filter.mp hc2f with ⟨hc2m, hc2s⟩
    have : c2 = c := List.inj_on_of_nodup_map hnd hc2m hc hc2id
    exact this ▸ hc2s
  · intro hs
    exact List.mem_map.mpr ⟨c, List.mem_filter.mpr ⟨hc, hs⟩, rfl⟩

/-- Claim C4 witness. -/
theorem send_intent_filtering_witness :
    (⟨1, ["b"], SendOutcome.ok⟩ : WSConn).wsId ∈
      (send [⟨0, ["a"], SendOutcome.ok⟩, ⟨1, ["b"], SendOutcome.ok⟩]
        ["b"]).delivered :=
  (send_intent_filtering
    [⟨0, ["a"], SendOutcome.ok⟩, ⟨1, ["b"], SendOutcome.ok⟩] ["b"]
    (by decide) (by decide) ⟨1, ["b"], SendOutcome.ok⟩ (by decide)).mpr
    (Or.inr ⟨"b", by simp, by simp⟩)

/-- Claim C5 counterexample: a subscriber whose `send` raises an exception
other than the two ConnectionClosed types makes the broadcast propagate the
failure, stay delivered to nobody later in order, and leave the failing
subscriber registered. -/
theorem send_uncaught_exception_cex :
    send [⟨0, [], SendOutcome.otherError⟩, ⟨1, [], SendOutcome.ok⟩] [] =
      { delivered := [],
        conns := [⟨0, [], SendOutcome.otherError⟩, ⟨1, [], SendOutcome.ok⟩],
        raised := true } := by decide

/-- Claim C5 as amended: when every failure is one of the two caught
connection-closed exceptions, the broadcast never propagates a failure, the
message reaches exactly the matching subscribers whose send succeeds (also
those after a failing one in iteration order), and exactly the matching
failing subscribers are removed, after the pass completes. -/
theorem send_closed_subscribers_pruned (conns : List WSConn)
    (intents : List String)
    (hno : ∀ x ∈ conns, x.outcome ≠ SendOutcome.otherError)
    (hnd : conns.Nodup) :
    (send conns intents).raised = false ∧
    (send conns intents).delivered =
      (conns.filter (fun c =>
        shouldSend intents c && (c.outcome == SendOutcome.ok))).map WSConn.wsId ∧
    (send conns intents).conns =
      conns.filter (fun c =>
        !(shouldSend intents c && !(c.outcome == SendOutcome.ok))) := by
  have hsl := sendLoop_of_no_other intents conns hno
  have hrd := runDisconnects_eq
    (conns.filter (fun c => shouldSend intents c && !(c.outcome == SendOutcome.ok)))
    conns hnd (hnd.filter _) (fun x hx => (List.mem_filter.mp hx).1)
  have hcf : conns.filter (fun c =>
      !((conns.filter (fun x =>
        shouldSend intents x && !(x.outcome == SendOutcome.ok))).contains c)) =
      conns.filter (fun c =>
        !(shouldSend intents c && !(c.outcome == SendOutcome.ok))) := by
    apply List.filter_congr
    intro c hcm
    congr 1
    rw [Bool.eq_iff_iff]
    constructor
    · intro hin
      exact (List.mem_filter.mp ((list_contains_iff _ _).mp hin)).2
    · intro hp
      exact (list_contains_iff _ _).mpr (List.mem_filter.mpr ⟨hcm, hp⟩)
  refine ⟨?_, ?_, ?_⟩
  · rw [send, hsl]
    simp only [hrd, Bool.false_eq_true, if_false]
  · rw [send, hsl]
    simp only [hrd, Bool.false_eq_true, if_false]
  · rw [send, hsl]
    simp only [hrd, Bool.false_eq_true, if_false, hcf]

/-- Claim C5 witness: one closed subscriber followed by a healthy one on an
unfiltered broadcast. -/
theorem send_closed_subscribers_pruned_witness :
    (send [⟨0, [], SendOutcome.closedOk⟩, ⟨1, [], SendOutcome.ok⟩] []).raised
        = false ∧
    (send [⟨0, [], SendOutcome.closedOk⟩, ⟨1, [], SendOutcome.ok⟩] []).delivered
        = ([⟨0, [], SendOutcome.closedOk⟩, ⟨1, [], SendOutcome.ok⟩].filter
            (fun c => shouldSend [] c && (c.outcome == SendOutcome.ok))).map
              WSConn.wsId ∧
    (send [⟨0, [], SendOutcome.closedOk⟩, ⟨1, [], SendOutcome.ok⟩] []).conns
        = [⟨0, [], SendOutcome.closedOk⟩, ⟨1, [], SendOutcome.ok⟩].filter
            (fun c => !(shouldSend [] c && !(c.outcome == SendOutcome.ok))) :=
  send_closed_subscribers_pruned
    [⟨0, [], SendOutcome.closedOk⟩, ⟨1, [], SendOutcome.ok⟩] []
    (by decide) (by decide)

theorem get_append_len (l₁ : List α) (x : α) (t : List α)
    (h : l₁.length < (l₁ ++ x :: t).length) :
    (l₁ ++ x :: t).get ⟨l₁.length, h⟩ = x := by
  rw [List.get_eq_getElem, List.getElem_append_right (Nat.le_refl _)]
  simp

/-- What one call of the raw-unregister loop computes, tracked through the
mutating iteration: the prefix `l₁` has already been scanned (and holds no
match), the suffix `l₂` is still to scan. Under distinct wsIds the loop
removes exactly the matching elements of the suffix. -/
theorem disconnRawGo_spec (w : Nat) :
    ∀ (fuel : Nat) (l₂ l₁ : List WSConn), l₂.length ≤ fuel →
    ((l₁ ++ l₂).map WSConn.wsId).Nodup →
    (∀ a ∈ l₁, a.wsId ≠ w) →
    disconnRawGo w fuel (l₁ ++ l₂) l₁.length =
      l₁ ++ l₂.filter (fun c => !(c.wsId == w)) := by
  intro fuel
  induction fuel with
  | zero =>
    intro l₂ l₁ hlen _ _
    have h2 : l₂ = [] := List.length_eq_zero.mp (Nat.le_zero.mp hlen)
    subst h2
    simp [disconnRawGo]
  | succ fuel ih =>
    intro l₂ l₁ hlen hnd h₁
    cases l₂ with
    | nil =>
      simp only [disconnRawGo]
      rw [dif_neg (by simp)]
      simp
    | cons x t =>
      have hi : l₁.length < (l₁ ++ x :: t).length := by simp
      simp only [disconnRawGo]
      rw [dif_pos hi]
      simp only [get_append_len]
      by_cases hxw : x.wsId = w
      · rw [if_pos hxw]
        have hrm : removeFirst (fun y => y == x) (l₁ ++ x :: t) = l₁ ++ t := by
          rw [removeFirst_append_of_none ?hno]
          · rw [removeFirst_cons_of_pos (by simp)]
          case hno =>
            intro a ha
            have haw := h₁ a ha
            simp only [beq_eq_false_iff_ne, ne_eq]
            intro haeq
            exact haw (haeq ▸ hxw)
        rw [hrm, List.filter_cons_of_neg (by simp [hxw])]
        cases t with
        | nil =>
          cases fuel with
          | zero => simp [disconnRawGo]
          | succ f =>
            simp only [disconnRawGo]
            rw [dif_neg (by simp)]
            simp
        | cons y t2 =>
          have hy : y.wsId ≠ w := by
            intro hyw
            have hsub : List.Sublist [x, y] (l₁ ++ x :: y :: t2) :=
              (List.Sublist.cons₂ x (List.Sublist.cons₂ y
                (List.nil_sublist t2))).trans
                (List.sublist_append_right l₁ (x :: y :: t2))
            have hnd2 : ([x, y].map WSConn.wsId).Nodup :=
              (hsub.map WSConn.wsId).nodup hnd
            simp [hxw, hyw] at hnd2
          have hnd2 : (((l₁ ++ [y]) ++ t2).map WSConn.wsId).Nodup := by
            refine List.Nodup.sublist (List.Sublist.map _ ?_) hnd
            rw [List.append_assoc, List.singleton_append]
            exact List.Sublist.append_left (List.sublist_cons_self x (y :: t2)) l₁
          have h₁2 : ∀ a ∈ l₁ ++ [y], a.wsId ≠ w := by
            intro a ha
            rcases List.mem_append.mp ha with ha | ha
            · exact h₁ a ha
            · simp only [List.mem_singleton] at ha
              exact ha ▸ hy
          have hrec := ih t2 (l₁ ++ [y])
            (by simp only [List.length_cons] at hlen; omega) hnd2 h₁2
          rw [List.append_assoc, List.singleton_append] at hrec
          simp only [List.length_append, List.length_singleton] at hrec
          rw [hrec, List.filter_cons_of_pos (by simp [hy])]
          simp
      · rw [if_neg hxw]
        have hnd2 : (((l₁ ++ [x]) ++ t).map WSConn.wsId).Nodup := by
          rw [List.append_assoc, List.singleton_append]
          exact hnd
        have h₁2 : ∀ a ∈ l₁ ++ [x], a.wsId ≠ w := by
          intro a ha
          rcases List.mem_append.mp ha with ha | ha
          · exact h₁ a ha
          · simp only [List.mem_singleton] at ha
            exact ha ▸ hxw
        have hrec := ih t (l₁ ++ [x])
          (by simp only [List.length_cons] at hlen; omega) hnd2 h₁2
        rw [List.append_assoc, List.singleton_append] at hrec
        simp only [List.length_append, List.length_singleton] at hrec
        rw [hrec, List.filter_cons_of_pos (by simp [hxw])]
        simp

/-- The whole raw-form unregister call: with pairwise distinct wsIds it
removes exactly the matching connections. -/
theorem disconnRaw_eq_filter (w : Nat) (conns : List WSConn)
    (hnd : (conns.map WSConn.wsId).Nodup) :
    disconnRaw w conns = conns.filter (fun c => !(c.wsId == w)) := by
  have := disconnRawGo_spec w conns.length conns [] (Nat.le_refl _)
    (by simpa using hnd) (by simp)
  simpa [disconnRaw] using this

/-- Claim C8 counterexample: unregistering twice with the same wrapped
connection handle is not a no-op — the second call raises ValueError from
`list.remove`. -/
theorem disconnected_handle_second_call_raises_cex :
    disconnected [⟨0, [], SendOutcome.ok⟩]
      (DisconnArg.handle ⟨0, [], SendOutcome.ok⟩) = Except.ok [] ∧
    disconnected []
      (DisconnArg.handle ⟨0, [], SendOutcome.ok⟩) = Except.error () := by
  decide

/-- Claim C8 as amended: unregistration is idempotent for the raw-connection
argument form (under distinct underlying connections) — the second call
finds no match and is a harmless no-op — while for the wrapped-handle form
a second call on an already-removed handle raises ValueError instead of
being a no-op. -/
theorem disconnected_unregister_amended :
    (∀ (conns : List WSConn) (w : Nat), (conns.map WSConn.wsId).Nodup →
      disconnected (disconnRaw w conns) (DisconnArg.raw w) =
        Except.ok (disconnRaw w conns)) ∧
    (∀ (conns : List WSConn) (c : WSConn), c ∉ conns →
      disconnected conns (DisconnArg.handle c) = Except.error ()) := by
  constructor
  · intro conns w hnd
    have h1 := disconnRaw_eq_filter w conns hnd
    have hnd2 : ((conns.filter (fun c => !(c.wsId == w))).map WSConn.wsId).Nodup :=
      List.Nodup.sublist (List.Sublist.map _ (List.filter_sublist conns)) hnd
    have h2 := disconnRaw_eq_filter w (conns.filter (fun c => !(c.wsId == w))) hnd2
    rw [disconnected, h1, h2, List.filter_filter]
    congr 2
    funext a
    exact Bool.and_self _
  · intro conns c hcm
    rw [disconnected, disconnectedHandle,
      if_neg (fun hin => hcm ((list_contains_iff conns c).mp hin))]

/-- Claim C8 witness: a two-subscriber registry handled through both
argument forms. -/
theorem disconnected_unregister_amended_witness :
    disconnected (disconnRaw 0 [⟨0, [], SendOutcome.ok⟩, ⟨1, [], SendOutcome.ok⟩])
      (DisconnArg.raw 0) =
      Except.ok (disconnRaw 0 [⟨0, [], SendOutcome.ok⟩, ⟨1, [], SendOutcome.ok⟩]) ∧
    disconnected [⟨1, [], SendOutcome.ok⟩]
      (DisconnArg.handle ⟨0, [], SendOutcome.ok⟩) = Except.error () :=
  ⟨disconnected_unregister_amended.1
      [⟨0, [], SendOutcome.ok⟩, ⟨1, [], SendOutcome.ok⟩] 0 (by decide),
    disconnected_unregister_amended.2 [⟨1, [], SendOutcome.ok⟩]
      ⟨0, [], SendOutcome.ok⟩ (by decide)⟩

/-! ## Supervisor lifecycle claims -/

/-- Claim C3: `stop()` on an OFFLINE or STOPPING supervisor returns no
signal and leaves the state untouched (so nothing is persisted and nothing
is broadcast); on a STARTING or ONLINE supervisor it writes the stop
command to stdin and returns a fresh completion signal, which the close
callback `on_stop` fulfills. -/
theorem stop_idempotent_and_fresh_signal :
    (∀ st : SrvState, st.onlineStatus = 0 ∨ st.onlineStatus = 3 →
      stop st = (none, st)) ∧
    (∀ st : SrvState, (st.onlineStatus = 1 ∨ st.onlineStatus = 2) →
      st.running = true → (∀ e ∈ st.fulfilled, e < st.nextSignal) →
      ∃ sig st2, stop st = (some sig, st2) ∧
        st2.stdinWrites = st.stdinWrites ++ ["stop"] ∧
        st2.fulfilled = st.fulfilled ∧ sig ∉ st.fulfilled ∧
        st2.stopEvent = some sig ∧
        (on_stop st2).fulfilled = st2.fulfilled ++ [sig]) := by
  constructor
  · intro st h
    rw [stop, if_pos h]
  · intro st h hrun hfr
    have hcond : ¬(st.onlineStatus = 0 ∨ st.onlineStatus = 3) := by
      rcases h with h | h <;> simp [h]
    have hpre : List.isPrefixOf "stop".toList "stop".toList = true := by decide
    rw [stop, if_neg hcond]
    refine ⟨_, _, rfl, ?_, ?_, ?_, ?_, ?_⟩
    · simp [send_command, write_stdin_sync, set_online_status, create_event,
        hpre, hrun]
    · simp [send_command, write_stdin_sync, set_online_status, create_event,
        hpre, hrun]
    · intro hmem
      have hmem2 : st.nextSignal ∈ st.fulfilled := by
        simpa [send_command, write_stdin_sync, set_online_status,
          create_event, hpre, hrun] using hmem
      have hlt := hfr _ hmem2
      omega
    · simp
    · simp [on_stop, send_command, write_stdin_sync, set_online_status,
        create_event, hpre, hrun]

/-- Claim C3 witness: an ONLINE supervisor and an OFFLINE one. -/
theorem stop_idempotent_and_fresh_signal_witness :
    stop idleState = (none, idleState) ∧
    ∃ sig st2,
      stop onlineState = (some sig, st2) ∧
      st2.stdinWrites = onlineState.stdinWrites ++ ["stop"] ∧
      st2.fulfilled = onlineState.fulfilled ∧
      sig ∉ onlineState.fulfilled ∧
      st2.stopEvent = some sig ∧
      (on_stop st2).fulfilled = st2.fulfilled ++ [sig] :=
  ⟨stop_idempotent_and_fresh_signal.1 idleState (Or.inl rfl),
    stop_idempotent_and_fresh_signal.2 onlineState
      (Or.inr rfl) rfl (by simp [onlineState])⟩

/-- Claim C9: a console line matching the player-leave pattern with a
captured name that is not in the online-player set makes the output handler
raise an uncaught KeyError out of `set.remove`: the PLAYER_LEAVE event is
already persisted, but the CONSOLE_MESSAGE event for the line is never
created. -/
theorem on_output_leave_keyerror (rx : RxMatchers) (line : String)
    (st : SrvState) (n : String)
    (hleave : rx.playerLeave (stripLine line) = some n)
    (hjoin : rx.playerJoin (stripLine line) = none)
    (hnot : n ∉ st.onlinePlayers) :
    ∃ st2, on_output rx line st = Except.error ("KeyError", st2) ∧
      st2.savedEvents =
        st.savedEvents ++ [(EvType.PLAYER_LEAVE, [("name", n)])] := by
  by_cases hc : st.onlineStatus = 1 ∧ rx.start (stripLine line) = true
  · refine ⟨create_event EvType.PLAYER_LEAVE [("name", n)]
      (set_online_status 2 st), ?_, ?_⟩
    · rw [on_output]
      simp only [hjoin, hleave, if_pos hc]
      rw [on_player_leave,
        if_neg (by simpa [create_event, set_online_status] using hnot)]
    · simp [create_event, set_online_status]
  · refine ⟨create_event EvType.PLAYER_LEAVE [("name", n)] st, ?_, ?_⟩
    · rw [on_output]
      simp only [hjoin, hleave, if_neg hc]
      rw [on_player_leave, if_neg (by simpa [create_event] using hnot)]
    · simp [create_event]

/-- Claim C9 witness: a leave line with no preceding join since
construction. -/
theorem on_output_leave_keyerror_witness :
    ∃ st2, on_output
        ⟨fun _ => false, fun _ => none,
          fun l => if l = "alice lost connection: gone" then some "alice"
            else none⟩
        " alice lost connection: gone " idleState =
        Except.error ("KeyError", st2) ∧
      st2.savedEvents = idleState.savedEvents ++
        [(EvType.PLAYER_LEAVE, [("name", "alice")])] :=
  on_output_leave_keyerror _ _ idleState "alice" (by decide) (by decide)
    (by decide)

/-- Claim C10: every `set_online_status(0)` persists a SERVER_STOP event
and broadcasts a state change, every `set_online_status(1)` persists a
SERVER_START event and broadcasts a state change; hence the registry-init
force-reset of a descriptor persisted as STARTING or STOPPING records a
SERVER_STOP, and the spawn-failure path of `start` records SERVER_START,
SERVER_EXCEPTION and SERVER_STOP, although no process ran. -/
theorem set_online_status_event_paths :
    (∀ st : SrvState,
      (set_online_status 0 st).savedEvents =
        st.savedEvents ++ [(EvType.SERVER_STOP, [])] ∧
      (set_online_status 0 st).packets =
        st.packets ++ [Packet.event EvType.SERVER_STOP [] [],
          Packet.stateChange 0]) ∧
    (∀ st : SrvState,
      (set_online_status 1 st).savedEvents =
        st.savedEvents ++ [(EvType.SERVER_START, [])] ∧
      (set_online_status 1 st).packets =
        st.packets ++ [Packet.event EvType.SERVER_START [] [],
          Packet.stateChange 1]) ∧
    (∀ (b : Bool) (m : String) (rc : Nat × Nat) (st : SrvState),
      st.onlineStatus = 1 ∨ st.onlineStatus = 3 →
      (init_server_entry b m rc st).savedEvents =
        st.savedEvents ++ [(EvType.SERVER_STOP, [])]) ∧
    (∀ (m : String) (rc : Nat × Nat) (st : SrvState),
      (start true m rc st).savedEvents = st.savedEvents ++
        [(EvType.SERVER_START, []), (EvType.SERVER_EXCEPTION, [("message", m)]),
          (EvType.SERVER_STOP, [])]) := by
  refine ⟨?_, ?_, ?_, ?_⟩
  · intro st
    constructor <;> simp [set_online_status, create_event]
  · intro st
    constructor <;> simp [set_online_status, create_event]
  · intro b m rc st h
    rcases h with h | h <;>
      simp [init_server_entry, h, set_online_status, create_event]
  · intro m rc st
    simp [start, set_online_status, create_event]

/-- Claim C10 witness: the init force-reset at a STOPPING descriptor and
the plain status transitions at a quiet state. -/
theorem set_online_status_event_paths_witness :
    ((set_online_status 0 idleState).savedEvents =
      idleState.savedEvents ++ [(EvType.SERVER_STOP, [])] ∧
    (set_online_status 0 idleState).packets =
      idleState.packets ++ [Packet.event EvType.SERVER_STOP [] [],
        Packet.stateChange 0]) ∧
    (init_server_entry false "boom" (0, 0)
        { idleState with onlineStatus := 3 }).savedEvents =
      ({ idleState with onlineStatus := 3 } : SrvState).savedEvents ++
        [(EvType.SERVER_STOP, [])] :=
  ⟨set_online_status_event_paths.1 idleState,
    set_online_status_event_paths.2.2.1 false "boom" (0, 0)
      { idleState with onlineStatus := 3 } (Or.inr rfl)⟩

/-! ## Server manager claims -/

/-- Claim C7 counterexample: deleting a supervisor whose persisted state is
STOPPING (3, non-OFFLINE) proceeds straight to removing the directory and
the record — the trace holds no stop-await — contradicting the claim that
every non-OFFLINE supervisor is stopped and awaited first. -/
theorem delete_server_stopping_no_wait_cex :
    ({ idleState with onlineStatus := 3 } : SrvState).onlineStatus ≠ 0 ∧
    delete_server [⟨7, { idleState with onlineStatus := 3 }, "data/srv"⟩]
        ⟨7, { idleState with onlineStatus := 3 }, "data/srv"⟩ =
      Except.ok ([], [DelEffect.rmtreeDir "data/srv", DelEffect.deleteRecord,
        DelEffect.broadcastDelete]) := by
  decide

/-- Claim C7 as amended: an unregistered supervisor raises ValueError and
nothing is removed; a registered STARTING or ONLINE supervisor is stopped
and its completion signal awaited before the directory, record, broadcast
and registry removal; a registered OFFLINE or STOPPING supervisor is
deleted without any stop-and-wait. -/
theorem delete_server_stop_wait_guard :
    (∀ (mgr : List MgrSrv) (srv : MgrSrv),
      mgr.any (fun s => s.srvId == srv.srvId) = false →
      delete_server mgr srv = Except.error "ValueError: invalid server") ∧
    (∀ (mgr : List MgrSrv) (srv : MgrSrv),
      mgr.any (fun s => s.srvId == srv.srvId) = true →
      (srv.st.onlineStatus = 1 ∨ srv.st.onlineStatus = 2) →
      delete_server mgr srv =
        Except.ok (removeFirst (fun s => s == srv) mgr,
          [DelEffect.stopAwaited srv.st.nextSignal,
            DelEffect.rmtreeDir srv.dataDir, DelEffect.deleteRecord,
            DelEffect.broadcastDelete])) ∧
    (∀ (mgr : List MgrSrv) (srv : MgrSrv),
      mgr.any (fun s => s.srvId == srv.srvId) = true →
      (srv.st.onlineStatus = 0 ∨ srv.st.onlineStatus = 3) →
      delete_server mgr srv =
        Except.ok (removeFirst (fun s => s == srv) mgr,
          [DelEffect.rmtreeDir srv.dataDir, DelEffect.deleteRecord,
            DelEffect.broadcastDelete])) := by
  refine ⟨?_, ?_, ?_⟩
  · intro mgr srv h
    rw [delete_server, if_pos (by simp [h])]
  · intro mgr srv hin h
    have hguard : 0 < srv.st.onlineStatus ∧ srv.st.onlineStatus < 3 := by
      rcases h with h | h <;> simp [h]
    have hcond : ¬(srv.st.onlineStatus = 0 ∨ srv.st.onlineStatus = 3) := by
      rcases h with h | h <;> simp [h]
    have hsig : (send_command "stop" srv.st).nextSignal = srv.st.nextSignal := by
      simp only [send_command, write_stdin_sync, set_online_status,
        create_event]
      split_ifs <;> rfl
    have hfst : (stop srv.st).1 = some srv.st.nextSignal := by
      rw [stop, if_neg hcond]
      simp [hsig]
    rcases hst : stop srv.st with ⟨o, st2⟩
    rw [hst] at hfst
    simp only at hfst
    subst hfst
    rw [delete_server, if_neg (by simp [hin])]
    simp only [if_pos hguard, hst]
    rfl
  · intro mgr srv hin h
    have hguard : ¬(0 < srv.st.onlineStatus ∧ srv.st.onlineStatus < 3) := by
      rcases h with h | h <;> simp [h]
    rw [delete_server, if_neg (by simp [hin])]
    simp only [if_neg hguard]
    rfl

/-- Claim C7 witness: deleting a registered ONLINE supervisor and a failed
delete of an unregistered one. -/
theorem delete_server_stop_wait_guard_witness :
    delete_server [⟨7, onlineState, "data/srv"⟩] ⟨7, onlineState, "data/srv"⟩ =
      Except.ok (removeFirst (fun s => s == (⟨7, onlineState, "data/srv"⟩ : MgrSrv))
        [⟨7, onlineState, "data/srv"⟩],
        [DelEffect.stopAwaited onlineState.nextSignal,
          DelEffect.rmtreeDir "data/srv", DelEffect.deleteRecord,
          DelEffect.broadcastDelete]) ∧
    delete_server [] ⟨7, onlineState, "data/srv"⟩ =
      Except.error "ValueError: invalid server" :=
  ⟨delete_server_stop_wait_guard.2.1 [⟨7, onlineState, "data/srv"⟩]
      ⟨7, onlineState, "data/srv"⟩ (by decide) (Or.inr rfl),
    delete_server_stop_wait_guard.1 [] ⟨7, onlineState, "data/srv"⟩ (by decide)⟩

/-- Claim C1: the port validation at servermanager.py:121 is a precedence
bug. Because Python parses `port < 25000 | port > 30000` as
`(port < (25000 | port)) and ((25000 | port) > 30000)`, port 30000 — inside
the reserved range 25000-30000 — is rejected with INVALID_PORT (the check
runs with no prior side effect, so the trace is empty), while port 10 —
far outside the range — sails through the port check and reaches the next
validation (the name policy, failed here on purpose to observe it). -/
theorem create_server_port_check_bug :
    portCheckRejects 30000 = true ∧
    portCheckRejects 29999 = true ∧
    portCheckRejects 10 = false ∧
    portCheckRejects 25000 = false ∧
    create_server { baseParams with port := PortParam.int 30000 } =
      (CSResult.apiError APIError.INVALID_PORT, []) ∧
    (create_server { baseParams with port := PortParam.int 10, nameMatchesPolicy := false }).1 =
      CSResult.apiError APIError.ILLEGAL_SERVER_NAME := by
  decide

/-- Claim C2 counterexample: when the post-install step throws, the
persisted record is deleted but the just-created data directory is not
removed — no rmtree appears in the trace — so the claimed full rollback
does not happen. -/
theorem create_server_rollback_keeps_directory_cex :
    create_server { baseParams with postDownloadThrows := true } =
      (CSResult.apiError APIError.SERVER_VERSION_POST_INSTALL,
        [CSEffect.mkdir "cwd/servers/my-server", CSEffect.download,
          CSEffect.saveEula, CSEffect.saveRecord, CSEffect.deleteRecord]) ∧
    CSEffect.rmtree "cwd/servers/my-server" ∉
      (create_server { baseParams with postDownloadThrows := true }).2 := by
  decide

/-- Claim C2 as amended: when every validation passes and post-install
throws, `create_server` deletes the just-persisted record and returns the
post-install error; the server is not appended to the live registry and no
creation event is broadcast — but the created data directory is left on
disk. -/
theorem create_server_post_install_rollback (p : CSParams)
    (h1 : p.providerIsValid = true) (h2 : p.hasVersion = true)
    (h3 : ¬p.ram > p.maxRam) (n : Int) (h4 : p.port = PortParam.int n)
    (h5 : portCheckRejects n = false) (h6 : p.nameMatchesPolicy = true)
    (h7 : p.javaKnown = true) (h8 : p.postDownloadThrows = true) :
    ∃ d, create_server p =
      (CSResult.apiError APIError.SERVER_VERSION_POST_INSTALL,
        [CSEffect.mkdir d, CSEffect.download, CSEffect.saveEula,
          CSEffect.saveRecord, CSEffect.deleteRecord]) := by
  refine ⟨resolveDir p.existingDirs (joinPath (joinPath p.cwd p.serverDir)
    (resolveName p.existingNames (format_name p.name))), ?_⟩
  rw [create_server]
  simp [h1, h2, h3, h4, h5, h6, h7, h8]

/-- Claim C2 witness. -/
theorem create_server_post_install_rollback_witness :
    ∃ d, create_server { baseParams with postDownloadThrows := true } =
      (CSResult.apiError APIError.SERVER_VERSION_POST_INSTALL,
        [CSEffect.mkdir d, CSEffect.download, CSEffect.saveEula,
          CSEffect.saveRecord, CSEffect.deleteRecord]) :=
  create_server_post_install_rollback
    { baseParams with postDownloadThrows := true }
    rfl rfl (by decide) 25565 rfl (by decide) rfl rfl rfl

/-- Claim C6: `ServerCommunication.begin` wires both background
line-readers to the stdout pipe of the child: the watcher wired to the
stderr callback also reads stdout, no watcher reads the stderr pipe, and
exactly one watcher (the stdout/output one) owns the close callback. -/
theorem begin_watchers_both_read_stdout :
    begin_watchers ⟨10, 11⟩ =
      [⟨10, CallbackTag.onOutputCb, true⟩, ⟨10, CallbackTag.onStderrCb, false⟩] ∧
    (begin_watchers ⟨10, 11⟩).countP (fun w => w.stream == 11) = 0 ∧
    (begin_watchers ⟨10, 11⟩).countP (fun w => w.hasOnClose) = 1 := by
  decide

end Semoxy
